import Mathlib

set_option linter.unusedVariables false

/-! Shallow embedding of the WebSocket session client of this repository
(src/custom-hooks.js): the WebSocketClient class — singleton socket owner,
logon handshake, reconnect logic — together with the useMessageSender hook,
which owns the outbound message queue and the flush effect.

Modelling conventions:
- The external protobuf codec is opaque.  An inbound frame is identified
  with its decode result (`none` models a frame on which ServerMsg.decode
  throws); ClientMsg.encode is an opaque wrapper around the message.
- Successive physical WebSocket instances are distinguished by a generation
  number; readyState is tracked explicitly.
- Transmissions to the transport are recorded in a log; each record also
  snapshots the isLoggedIn flag at the instant of transmission, and each
  subscriber-callback invocation is recorded with a snapshot of the
  client's observable flags at invocation time.  These snapshots are
  specification instrumentation only; they influence no control flow. -/

/-- Result code carried by a logon-result control message
(WebAPI.LogonResult). -/
structure LogonResult where
  resultCode : Int
deriving DecidableEq, Repr

/-- Logged-off control message content (opaque to the client). -/
structure LoggedOff where
  info : Nat
deriving DecidableEq, Repr

/-- Decoded inbound message (WebAPI.ServerMsg): optional logon-result and
logged-off control sub-messages plus opaque application content. -/
structure ServerMsg where
  logonResult : Option LogonResult := none
  loggedOff : Option LoggedOff := none
  appContent : Nat := 0
deriving DecidableEq, Repr

/-- Logon credentials (UserSession.Logon). -/
structure Logon where
  userName : String := ""
  password : String := ""
  clientAppId : String := ""
  clientVersion : String := ""
deriving DecidableEq, Repr

/-- Outbound message (WebAPI.ClientMsg): optional logon sub-message plus
opaque application content. -/
structure ClientMsg where
  logon : Option Logon := none
  appContent : Nat := 0
deriving DecidableEq, Repr

/-- Opaque result of WebAPI.ClientMsg.encode(message).finish(). -/
structure Encoded where
  msg : ClientMsg
deriving DecidableEq, Repr

/-- The external codec is opaque; encoding is modelled as the identity
wrap of the message. -/
def ClientMsg.encode (m : ClientMsg) : Encoded := ⟨m⟩

/-- WebSocket readyState constants. -/
inductive ReadyState where
  | CONNECTING
  | OPEN
  | CLOSING
  | CLOSED
deriving DecidableEq, Repr

/-- readyState after calling WebSocket.close() on a socket: a CLOSED socket
stays CLOSED, any other socket moves to CLOSING. -/
def ReadyState.afterClose : ReadyState → ReadyState
  | .CLOSED => .CLOSED
  | _ => .CLOSING

/-- One physical WebSocket instance: its creation generation (successive
sockets of the singleton client get successive generations) and its
readyState. -/
structure Socket where
  gen : Nat
  readyState : ReadyState
deriving DecidableEq, Repr

/-- The mutable fields of the WebSocketClient singleton. -/
structure WebSocketClientState where
  socket : Option Socket := none
  isLoggedIn : Bool := false
  isUserLogout : Bool := false
deriving DecidableEq, Repr

/-- this.socket?.readyState === WebSocket.OPEN (optional chaining: false
when no socket exists). -/
def socketIsOpen (c : WebSocketClientState) : Bool :=
  match c.socket with
  | some k => k.readyState == ReadyState.OPEN
  | none => false

/-- WebSocketClient.isReady getter: this.isLoggedIn &&
this.socket?.readyState === WebSocket.OPEN. -/
def isReady (c : WebSocketClientState) : Bool :=
  c.isLoggedIn && socketIsOpen c

/-- The ConnectionNotReadyError value: an Error subclass whose name field
distinguishes it. -/
structure ConnectionNotReadyError where
  name : String
  message : String
deriving DecidableEq, Repr

/-- new ConnectionNotReadyError(message): the constructor sets the name. -/
def mkConnectionNotReadyError (message : String) : ConnectionNotReadyError :=
  { name := "ConnectionNotReadyError", message := message }

/-- Outcome of WebSocketClient.send: either the encoded bytes were handed to
the socket, or a ConnectionNotReadyError value was returned (not thrown). -/
inductive SendResult where
  | sent (bytes : Encoded)
  | err (e : ConnectionNotReadyError)
deriving DecidableEq, Repr

/-- WebSocketClient.send(message): encode first; transmit when
this.socket?.readyState === WebSocket.OPEN, otherwise return a
ConnectionNotReadyError ("Connection is not ready"). -/
def clientSendResult (c : WebSocketClientState) (message : ClientMsg) : SendResult :=
  let encoded := ClientMsg.encode message
  if socketIsOpen c then SendResult.sent encoded
  else SendResult.err (mkConnectionNotReadyError "Connection is not ready")

/-- One record of the transport log: the socket generation the message was
handed to, the message, and (instrumentation) the isLoggedIn flag at the
instant of transmission. -/
structure SendRec where
  gen : Nat
  msg : ClientMsg
  loggedInAtSend : Bool
deriving DecidableEq, Repr

/-- Record of one subscriber callback invocation.  A message callback
snapshots (instrumentation) isLoggedIn, socket-open and isReady at the
instant the callback is invoked. -/
inductive CallbackRec where
  | onOpenCB
  | onMessageCB (msg : ServerMsg) (loggedInAt : Bool) (socketOpenAt : Bool) (readyAt : Bool)
  | onCloseCB
  | onErrorCB
deriving DecidableEq, Repr

/-- Whole-system state: the WebSocketClient singleton, the generation
counter for fresh sockets, the hook state (wsClient set, messageQueue ref),
the transport log and the callback log. -/
structure Sys where
  client : WebSocketClientState
  nextGen : Nat
  wsClientSet : Bool
  queue : List ClientMsg
  sends : List SendRec
  callbacks : List CallbackRec
deriving DecidableEq, Repr

/-- WebSocketClient.send with the transmit effect made explicit: when
clientSendResult transmits, the message is appended to the transport log
(with the current socket generation and the isLoggedIn snapshot); otherwise
the state is unchanged (the error value is returned to the caller, which in
this repository ignores it). -/
def sysSend (s : Sys) (m : ClientMsg) : Sys :=
  match s.client.socket with
  | some k =>
      if k.readyState == ReadyState.OPEN then
        { s with sends := s.sends ++ [⟨k.gen, m, s.client.isLoggedIn⟩] }
      else s
  | none => s

/-- WebSocketClient.initiateLogon: the logon ClientMsg built from the stored
credentials. -/
def initiateLogonMsg : ClientMsg :=
  { logon := some { userName := "cmetest", password := "pass",
                    clientAppId := "ConnamaraMultiSession",
                    clientVersion := "1.1.5038.15046" } }

/-- WebSocketClient.initSocket: this.socket = new WebSocket(url) — a fresh
socket in readyState CONNECTING with the four handlers bound. -/
def initSocket (s : Sys) : Sys :=
  { s with client := { s.client with socket := some ⟨s.nextGen, ReadyState.CONNECTING⟩ },
           nextGen := s.nextGen + 1 }

/-- WebSocketClient.closeSocket: this.socket?.close(); delete this.socket. -/
def closeSocket (s : Sys) : Sys :=
  { s with client := { s.client with socket := none } }

/-- WebSocketClient.onWsOpen (the browser sets readyState OPEN before the
handler runs): initiateLogon(), then the subscriber onOpen callback. -/
def onWsOpenSys (s : Sys) : Sys :=
  let s1 : Sys :=
    { s with client := { s.client with
        socket := s.client.socket.map fun k => { k with readyState := ReadyState.OPEN } } }
  let s2 := sysSend s1 initiateLogonMsg
  { s2 with callbacks := s2.callbacks ++ [CallbackRec.onOpenCB] }

/-- Control-message processing inside WebSocketClient.onWsMessage: a
logon-result with resultCode 0 sets isLoggedIn; a logon-result with nonzero
resultCode calls this.socket?.close(); a loggedOff message is only
logged. -/
def processServerMsg (c : WebSocketClientState) (msg : ServerMsg) : WebSocketClientState :=
  match msg.logonResult with
  | some lr =>
      let c1 := if lr.resultCode == 0 then { c with isLoggedIn := true } else c
      if lr.resultCode != 0 then
        { c1 with socket := c1.socket.map fun k => { k with readyState := k.readyState.afterClose } }
      else c1
  | none => c

/-- The exception raised when ServerMsg.decode throws on a bad frame. -/
inductive DecodeError where
  | decodeFailed
deriving DecidableEq, Repr

/-- WebSocketClient.onWsMessage up to the subscriber callback.  The frame is
identified with its decode result; decode of a bad frame throws, and the
handler body has no try/catch, so on a bad frame the handler is left by the
exception (Except.error) before any further statement runs. -/
def onWsMessageE (c : WebSocketClientState) :
    Option ServerMsg → Except DecodeError (WebSocketClientState × ServerMsg)
  | none => Except.error DecodeError.decodeFailed
  | some msg => Except.ok (processServerMsg c msg, msg)

/-- System step for one inbound frame.  On decode failure nothing in the
session changes and no callback runs (the rejection propagates to the host).
On success the control content is processed first and only then is the
subscriber onMessage callback invoked; the callback record snapshots
isLoggedIn / socket-open / isReady at invocation time.  The hook's
onMessage body only stores the message in React state, which re-renders the
component but re-runs no effect (the effect dependency wsClient is
unchanged). -/
def onWsMessageSys (s : Sys) (frame : Option ServerMsg) : Sys :=
  match onWsMessageE s.client frame with
  | Except.error _ => s
  | Except.ok (c, msg) =>
      { s with client := c,
               callbacks := s.callbacks ++
                 [CallbackRec.onMessageCB msg c.isLoggedIn (socketIsOpen c) (isReady c)] }

/-- WebSocketClient.onWsClose: unless isUserLogout is set, closeSocket(),
then the subscriber onClose callback, then initSocket() — the reconnect. -/
def onWsCloseSys (s : Sys) : Sys :=
  if s.client.isUserLogout then s
  else
    let s1 := closeSocket s
    let s2 := { s1 with callbacks := s1.callbacks ++ [CallbackRec.onCloseCB] }
    initSocket s2

/-- WebSocketClient.close (the public user-facing close): closeSocket()
only — note that it does not assign isUserLogout. -/
def clientClose (s : Sys) : Sys := closeSocket s

/-- useMessageSender.sendMessage: queue the message when the client is
absent or not ready, otherwise call WebSocketClient.send inside try/catch
(the returned error value, if any, is discarded). -/
def sendMessage (s : Sys) (m : ClientMsg) : Sys :=
  if !s.wsClientSet || isReady s.client == false then
    { s with queue := s.queue ++ [m] }
  else sysSend s m

/-- The hook's flush effect (dependency array [wsClient]): when the client
is set, ready, and the queue nonempty, the while/shift loop dequeues every
message in order and re-submits it through sendMessage.  Under the guard
isReady holds, and no iteration of the loop changes the client state, so
every iteration takes the transmit branch of sendMessage; the loop is
therefore the left fold of the transmit over the queue, leaving the queue
empty. -/
def effectFlush (s : Sys) : Sys :=
  if s.wsClientSet && isReady s.client && !s.queue.isEmpty then
    List.foldl (fun a m => sysSend a m) { s with queue := [] } s.queue
  else s

/-- System state right after the hook mounts: the mount effect creates the
singleton client (whose constructor runs initSocket) and binds the four
subscriber callbacks; setWsClient(ws) then changes the wsClient state from
null to the singleton, so the flush effect runs once on the following
render.  wsClient never changes identity again (the client is a singleton
created once), hence the [wsClient] flush effect never re-runs after this
point — which is why no later event re-enters effectFlush. -/
def mountSys : Sys :=
  effectFlush (initSocket { client := {}, nextGen := 0, wsClientSet := true,
                            queue := [], sends := [], callbacks := [] })

/-- External events driving the session after mount: browser socket events
delivered to the bound handlers (open, one inbound frame, close), the
public WebSocketClient.close(), and a caller invoking the hook's
sendMessage. -/
inductive Ev where
  | wsOpen
  | wsMessage (frame : Option ServerMsg)
  | wsClose
  | userClose
  | hookSend (m : ClientMsg)
deriving DecidableEq, Repr

/-- One system step per event. -/
def step (s : Sys) : Ev → Sys
  | Ev.wsOpen => onWsOpenSys s
  | Ev.wsMessage f => onWsMessageSys s f
  | Ev.wsClose => onWsCloseSys s
  | Ev.userClose => clientClose s
  | Ev.hookSend m => sendMessage s m

/-- Run a list of events from a given state. -/
def runFrom (s : Sys) (evs : List Ev) : Sys := evs.foldl step s

/-- Run a list of events from the post-mount state. -/
def run (evs : List Ev) : Sys := runFrom mountSys evs

/-- The transport log restricted to one socket generation. -/
def sendsFor (s : Sys) (g : Nat) : List SendRec :=
  s.sends.filter fun r => r.gen == g

/-- The messages the subscriber's onMessage callback has observed, in
order. -/
def messagesSeen (s : Sys) : List ServerMsg :=
  s.callbacks.filterMap fun cb =>
    match cb with
    | CallbackRec.onMessageCB m _ _ _ => some m
    | _ => none

/-- A successful logon-result message (resultCode 0). -/
def succMsg : ServerMsg := { logonResult := some ⟨0⟩ }

/-- A failed logon-result message (resultCode 7). -/
def failMsg7 : ServerMsg := { logonResult := some ⟨7⟩ }

/-- An opaque application message. -/
def m1 : ClientMsg := { appContent := 1 }

/-! ## Basic reduction and frame lemmas -/

theorem mountSys_eq :
    mountSys = { client := { socket := some ⟨0, ReadyState.CONNECTING⟩ },
                 nextGen := 1, wsClientSet := true,
                 queue := [], sends := [], callbacks := [] } := rfl

theorem runFrom_cons (s : Sys) (e : Ev) (evs : List Ev) :
    runFrom s (e :: evs) = runFrom (step s e) evs := rfl

theorem runFrom_preserves (P : Sys → Prop)
    (hstep : ∀ s e, P s → P (step s e)) :
    ∀ (evs : List Ev) (s : Sys), P s → P (runFrom s evs) := by
  intro evs
  induction evs with
  | nil => intro s h; exact h
  | cons e evs ih =>
      intro s h
      rw [runFrom_cons]
      exact ih (step s e) (hstep s e h)

theorem sysSend_client (s : Sys) (m : ClientMsg) : (sysSend s m).client = s.client := by
  unfold sysSend
  cases s.client.socket with
  | none => rfl
  | some k => by_cases h : k.readyState == ReadyState.OPEN <;> simp [h]

theorem sysSend_queue (s : Sys) (m : ClientMsg) : (sysSend s m).queue = s.queue := by
  unfold sysSend
  cases s.client.socket with
  | none => rfl
  | some k => by_cases h : k.readyState == ReadyState.OPEN <;> simp [h]

theorem sysSend_nextGen (s : Sys) (m : ClientMsg) : (sysSend s m).nextGen = s.nextGen := by
  unfold sysSend
  cases s.client.socket with
  | none => rfl
  | some k => by_cases h : k.readyState == ReadyState.OPEN <;> simp [h]

theorem mem_sysSend_sends (s : Sys) (m : ClientMsg) (r : SendRec)
    (hr : r ∈ (sysSend s m).sends) :
    r ∈ s.sends ∨ (r.msg = m ∧ r.loggedInAtSend = s.client.isLoggedIn) := by
  unfold sysSend at hr
  split at hr
  case h_1 k heq =>
    split at hr
    case isTrue hopen =>
      simp only [List.mem_append, List.mem_singleton] at hr
      cases hr with
      | inl h2 => exact Or.inl h2
      | inr h2 => subst h2; exact Or.inr ⟨rfl, rfl⟩
    case isFalse => exact Or.inl hr
  case h_2 => exact Or.inl hr

theorem onWsOpenSys_none (s : Sys) (hk : s.client.socket = none) :
    (onWsOpenSys s).sends = s.sends ∧ (onWsOpenSys s).client.socket = none ∧
    (onWsOpenSys s).nextGen = s.nextGen ∧ (onWsOpenSys s).queue = s.queue ∧
    (onWsOpenSys s).client.isLoggedIn = s.client.isLoggedIn ∧
    (onWsOpenSys s).client.isUserLogout = s.client.isUserLogout := by
  unfold onWsOpenSys sysSend
  simp [hk]

theorem onWsOpenSys_some (s : Sys) (k : Socket) (hk : s.client.socket = some k) :
    (onWsOpenSys s).sends = s.sends ++ [⟨k.gen, initiateLogonMsg, s.client.isLoggedIn⟩] ∧
    (onWsOpenSys s).client.socket = some ⟨k.gen, ReadyState.OPEN⟩ ∧
    (onWsOpenSys s).nextGen = s.nextGen ∧ (onWsOpenSys s).queue = s.queue ∧
    (onWsOpenSys s).client.isLoggedIn = s.client.isLoggedIn ∧
    (onWsOpenSys s).client.isUserLogout = s.client.isUserLogout := by
  unfold onWsOpenSys sysSend
  simp [hk]

theorem processServerMsg_socket (c : WebSocketClientState) (msg : ServerMsg) :
    (processServerMsg c msg).socket = c.socket ∨
    (processServerMsg c msg).socket =
      c.socket.map (fun k => ⟨k.gen, k.readyState.afterClose⟩) := by
  unfold processServerMsg
  cases msg.logonResult with
  | none => exact Or.inl rfl
  | some lr =>
      by_cases h1 : lr.resultCode != 0
      · right
        by_cases h0 : lr.resultCode == 0 <;> simp [h0, h1]
      · left
        by_cases h0 : lr.resultCode == 0 <;> simp [h0, h1]

theorem processServerMsg_isUserLogout (c : WebSocketClientState) (msg : ServerMsg) :
    (processServerMsg c msg).isUserLogout = c.isUserLogout := by
  unfold processServerMsg
  cases msg.logonResult with
  | none => rfl
  | some lr =>
      by_cases h1 : lr.resultCode != 0 <;> by_cases h0 : lr.resultCode == 0 <;>
        simp [h0, h1]

theorem onWsMessageSys_sends (s : Sys) (f : Option ServerMsg) :
    (onWsMessageSys s f).sends = s.sends := by
  cases f <;> simp [onWsMessageSys, onWsMessageE]

theorem onWsMessageSys_queue (s : Sys) (f : Option ServerMsg) :
    (onWsMessageSys s f).queue = s.queue := by
  cases f <;> simp [onWsMessageSys, onWsMessageE]

theorem onWsMessageSys_nextGen (s : Sys) (f : Option ServerMsg) :
    (onWsMessageSys s f).nextGen = s.nextGen := by
  cases f <;> simp [onWsMessageSys, onWsMessageE]

theorem onWsMessageSys_client_socket (s : Sys) (f : Option ServerMsg) :
    (onWsMessageSys s f).client.socket = s.client.socket ∨
    (onWsMessageSys s f).client.socket =
      s.client.socket.map (fun k => ⟨k.gen, k.readyState.afterClose⟩) := by
  cases f with
  | none => exact Or.inl rfl
  | some msg => exact processServerMsg_socket s.client msg

theorem onWsMessageSys_isUserLogout (s : Sys) (f : Option ServerMsg) :
    (onWsMessageSys s f).client.isUserLogout = s.client.isUserLogout := by
  cases f with
  | none => rfl
  | some msg => exact processServerMsg_isUserLogout s.client msg

theorem onWsCloseSys_eq (s : Sys) (h : s.client.isUserLogout = false) :
    onWsCloseSys s =
      { s with client := { s.client with socket := some ⟨s.nextGen, ReadyState.CONNECTING⟩ },
               nextGen := s.nextGen + 1,
               callbacks := s.callbacks ++ [CallbackRec.onCloseCB] } := by
  unfold onWsCloseSys closeSocket initSocket
  simp [h]

theorem afterClose_ne_OPEN (rs : ReadyState) : rs.afterClose ≠ ReadyState.OPEN := by
  cases rs <;> simp [ReadyState.afterClose]

theorem isReady_true_socket (c : WebSocketClientState) (h : isReady c = true) :
    c.isLoggedIn = true ∧ ∃ k, c.socket = some k ∧ k.readyState = ReadyState.OPEN := by
  unfold isReady at h
  rcases Bool.and_eq_true_iff.mp h with ⟨hl, ho⟩
  refine ⟨hl, ?_⟩
  unfold socketIsOpen at ho
  cases hk : c.socket with
  | none => rw [hk] at ho; exact absurd ho (by simp)
  | some k =>
      rw [hk] at ho
      exact ⟨k, rfl, by simpa using ho⟩

theorem sendMessage_not_ready (s : Sys) (m : ClientMsg)
    (h : (!s.wsClientSet || (isReady s.client == false)) = true) :
    sendMessage s m = { s with queue := s.queue ++ [m] } := by
  unfold sendMessage
  rw [if_pos h]

theorem sendMessage_ready (s : Sys) (m : ClientMsg)
    (h : (!s.wsClientSet || (isReady s.client == false)) = false) :
    sendMessage s m = sysSend s m := by
  unfold sendMessage
  have h' : ¬((!s.wsClientSet || (isReady s.client == false)) = true) := by
    rw [h]; exact Bool.false_ne_true
  rw [if_neg h']

theorem sendMessage_ready_isLoggedIn (s : Sys)
    (h : (!s.wsClientSet || (isReady s.client == false)) = false) :
    isReady s.client = true := by
  rcases Bool.or_eq_false_iff.mp h with ⟨h1, h2⟩
  cases hr : isReady s.client with
  | false => rw [hr] at h2; exact absurd h2 (by simp)
  | true => rfl

/-! ## The isUserLogout flag is never set -/

theorem step_isUserLogout (s : Sys) (e : Ev) :
    (step s e).client.isUserLogout = s.client.isUserLogout := by
  cases e with
  | wsOpen =>
      show (onWsOpenSys s).client.isUserLogout = s.client.isUserLogout
      cases hk : s.client.socket with
      | none => exact (onWsOpenSys_none s hk).2.2.2.2.2
      | some k => exact (onWsOpenSys_some s k hk).2.2.2.2.2
  | wsMessage f => exact onWsMessageSys_isUserLogout s f
  | wsClose =>
      show (onWsCloseSys s).client.isUserLogout = s.client.isUserLogout
      cases h : s.client.isUserLogout with
      | false => rw [onWsCloseSys_eq s h, h]
      | true => simp [onWsCloseSys, h]
  | userClose => rfl
  | hookSend m =>
      show (sendMessage s m).client.isUserLogout = s.client.isUserLogout
      cases h : (!s.wsClientSet || (isReady s.client == false)) with
      | true => rw [sendMessage_not_ready s m h]
      | false => rw [sendMessage_ready s m h, sysSend_client]

theorem run_isUserLogout_false (evs : List Ev) :
    (run evs).client.isUserLogout = false := by
  have h := runFrom_preserves (fun s => s.client.isUserLogout = false)
    (fun s e hs => by
      show (step s e).client.isUserLogout = false
      rw [step_isUserLogout]; exact hs) evs mountSys rfl
  exact h

theorem step_wsOpen (s : Sys) : step s Ev.wsOpen = onWsOpenSys s := rfl

theorem step_wsMessage (s : Sys) (f : Option ServerMsg) :
    step s (Ev.wsMessage f) = onWsMessageSys s f := rfl

theorem step_wsClose (s : Sys) : step s Ev.wsClose = onWsCloseSys s := rfl

theorem step_userClose (s : Sys) : step s Ev.userClose = clientClose s := rfl

theorem step_hookSend (s : Sys) (m : ClientMsg) :
    step s (Ev.hookSend m) = sendMessage s m := rfl

theorem onWsCloseSys_sends (s : Sys) : (onWsCloseSys s).sends = s.sends := by
  cases h : s.client.isUserLogout with
  | false => rw [onWsCloseSys_eq s h]
  | true => simp [onWsCloseSys, h]

/-! ## Invariant: every transport send is the logon message or happened
while isLoggedIn was true -/

/-- A transport-log record is accounted for: it is the logon message, or it
was transmitted while the isLoggedIn flag was set. -/
def SendRecOk (r : SendRec) : Prop :=
  r.msg.logon.isSome = true ∨ r.loggedInAtSend = true

/-- All transport-log records are accounted for. -/
def AuthSendInv (s : Sys) : Prop := ∀ r ∈ s.sends, SendRecOk r

theorem authSendInv_step (s : Sys) (e : Ev) (h : AuthSendInv s) :
    AuthSendInv (step s e) := by
  cases e with
  | wsOpen =>
      intro r hr
      rw [step_wsOpen] at hr
      cases hk : s.client.socket with
      | none =>
          rw [(onWsOpenSys_none s hk).1] at hr
          exact h r hr
      | some k =>
          rw [(onWsOpenSys_some s k hk).1] at hr
          simp only [List.mem_append, List.mem_singleton] at hr
          cases hr with
          | inl h2 => exact h r h2
          | inr h2 => subst h2; exact Or.inl rfl
  | wsMessage f =>
      intro r hr
      rw [step_wsMessage, onWsMessageSys_sends] at hr
      exact h r hr
  | wsClose =>
      intro r hr
      rw [step_wsClose, onWsCloseSys_sends] at hr
      exact h r hr
  | userClose =>
      intro r hr
      exact h r hr
  | hookSend m =>
      intro r hr
      rw [step_hookSend] at hr
      cases hcond : (!s.wsClientSet || (isReady s.client == false)) with
      | true =>
          rw [sendMessage_not_ready s m hcond] at hr
          exact h r hr
      | false =>
          rw [sendMessage_ready s m hcond] at hr
          cases mem_sysSend_sends s m r hr with
          | inl h2 => exact h r h2
          | inr h2 =>
              right
              rw [h2.2]
              exact (isReady_true_socket s.client
                (sendMessage_ready_isLoggedIn s hcond)).1

theorem authSendInv_run (evs : List Ev) : AuthSendInv (run evs) := by
  refine runFrom_preserves AuthSendInv authSendInv_step evs mountSys ?_
  intro r hr
  rw [mountSys_eq] at hr
  exact absurd hr (List.not_mem_nil r)

/-! ## Invariant: on every socket generation, the first transmitted payload
is the logon message -/

theorem sysSend_sends_open (s : Sys) (m : ClientMsg) (k : Socket)
    (hk : s.client.socket = some k) (hrs : k.readyState = ReadyState.OPEN) :
    (sysSend s m).sends = s.sends ++ [⟨k.gen, m, s.client.isLoggedIn⟩] := by
  unfold sysSend
  simp [hk, hrs]

theorem onWsCloseSys_logout (s : Sys) (h : s.client.isUserLogout = true) :
    onWsCloseSys s = s := by
  simp [onWsCloseSys, h]

theorem filterGen_append (l : List SendRec) (x : SendRec) (g : Nat) :
    (l ++ [x]).filter (fun r => r.gen == g) =
      l.filter (fun r => r.gen == g) ++ (if x.gen == g then [x] else []) := by
  rw [List.filter_append]
  congr 1
  by_cases h : (x.gen == g) = true <;> simp [h]

theorem head?_append_cases {α : Type} (l l' : List α) :
    (l ++ l').head? = if l.isEmpty then l'.head? else l.head? := by
  cases l <;> simp

theorem sendsFor_congr (s s' : Sys) (h : s'.sends = s.sends) (g : Nat) :
    sendsFor s' g = sendsFor s g := by
  unfold sendsFor
  rw [h]

theorem sendsFor_of_sends_eq (s s' : Sys) (x : SendRec)
    (h : s'.sends = s.sends ++ [x]) (g : Nat) :
    sendsFor s' g = sendsFor s g ++ (if x.gen == g then [x] else []) := by
  unfold sendsFor
  rw [h, filterGen_append]

/-- Generation bookkeeping: every logged send and the live socket carry a
generation below the fresh-generation counter. -/
def FreshGenInv (s : Sys) : Prop :=
  (∀ r ∈ s.sends, r.gen < s.nextGen) ∧
  (∀ k, s.client.socket = some k → k.gen < s.nextGen)

/-- On every socket generation, the first logged payload (if any) is the
logon message built from the stored credentials. -/
def LogonFirstInv (s : Sys) : Prop :=
  ∀ g r, (sendsFor s g).head? = some r → r.msg = initiateLogonMsg

/-- A socket in readyState OPEN has already transmitted something (its
open-event handler sent the logon). -/
def OpenHasSendInv (s : Sys) : Prop :=
  ∀ k, s.client.socket = some k → k.readyState = ReadyState.OPEN →
    sendsFor s k.gen ≠ []

/-- Conjunction of the socket/transport-log invariants. -/
def SocketInv (s : Sys) : Prop := FreshGenInv s ∧ LogonFirstInv s ∧ OpenHasSendInv s

theorem socketInv_mount : SocketInv mountSys := by
  rw [mountSys_eq]
  refine ⟨⟨?_, ?_⟩, ?_, ?_⟩
  · intro r hr
    exact absurd hr (List.not_mem_nil r)
  · intro k hk2
    cases Option.some.inj hk2
    exact Nat.lt_succ_self 0
  · intro g r hr
    exact absurd hr (by simp [sendsFor])
  · intro k hk2 hrs
    cases Option.some.inj hk2
    exact absurd hrs (by decide)

theorem socketInv_step (s : Sys) (e : Ev) (h : SocketInv s) : SocketInv (step s e) := by
  obtain ⟨⟨hA, hB⟩, hC, hD⟩ := h
  cases e with
  | wsOpen =>
      rw [step_wsOpen]
      cases hk : s.client.socket with
      | none =>
          obtain ⟨hs, hsock, hng, hq, hli, hlo⟩ := onWsOpenSys_none s hk
          refine ⟨⟨?_, ?_⟩, ?_, ?_⟩
          · intro r hr
            rw [hs] at hr
            rw [hng]
            exact hA r hr
          · intro k2 hk2
            rw [hsock] at hk2
            exact absurd hk2 (by simp)
          · intro g r hr
            rw [sendsFor_congr s (onWsOpenSys s) hs g] at hr
            exact hC g r hr
          · intro k2 hk2 hrs
            rw [hsock] at hk2
            exact absurd hk2 (by simp)
      | some k =>
          obtain ⟨hs, hsock, hng, hq, hli, hlo⟩ := onWsOpenSys_some s k hk
          have hgen : k.gen < s.nextGen := hB k hk
          refine ⟨⟨?_, ?_⟩, ?_, ?_⟩
          · intro r hr
            rw [hs] at hr
            rw [hng]
            simp only [List.mem_append, List.mem_singleton] at hr
            cases hr with
            | inl h2 => exact hA r h2
            | inr h2 => subst h2; exact hgen
          · intro k2 hk2
            rw [hsock] at hk2
            rw [hng]
            cases Option.some.inj hk2
            exact hgen
          · intro g r hr
            rw [sendsFor_of_sends_eq s (onWsOpenSys s) _ hs g, head?_append_cases] at hr
            by_cases hemp : (sendsFor s g).isEmpty = true
            · rw [if_pos hemp] at hr
              by_cases hgg : ((⟨k.gen, initiateLogonMsg, s.client.isLoggedIn⟩ : SendRec).gen == g) = true
              · rw [if_pos hgg] at hr
                cases Option.some.inj hr
                rfl
              · rw [if_neg hgg] at hr
                exact absurd hr (by simp)
            · rw [if_neg hemp] at hr
              exact hC g r hr
          · intro k2 hk2 hrs
            rw [hsock] at hk2
            cases Option.some.inj hk2
            rw [sendsFor_of_sends_eq s (onWsOpenSys s) _ hs k.gen]
            simp
  | wsMessage f =>
      rw [step_wsMessage]
      refine ⟨⟨?_, ?_⟩, ?_, ?_⟩
      · intro r hr
        rw [onWsMessageSys_sends] at hr
        rw [onWsMessageSys_nextGen]
        exact hA r hr
      · intro k hk2
        rw [onWsMessageSys_nextGen]
        cases onWsMessageSys_client_socket s f with
        | inl h2 =>
            rw [h2] at hk2
            exact hB k hk2
        | inr h2 =>
            rw [h2] at hk2
            cases hk0 : s.client.socket with
            | none => rw [hk0] at hk2; exact absurd hk2 (by simp)
            | some k0 =>
                rw [hk0] at hk2
                simp only [Option.map_some'] at hk2
                cases Option.some.inj hk2
                exact hB k0 hk0
      · intro g r hr
        rw [sendsFor_congr s (onWsMessageSys s f) (onWsMessageSys_sends s f) g] at hr
        exact hC g r hr
      · intro k hk2 hrs
        rw [sendsFor_congr s (onWsMessageSys s f) (onWsMessageSys_sends s f) k.gen]
        cases onWsMessageSys_client_socket s f with
        | inl h2 =>
            rw [h2] at hk2
            exact hD k hk2 hrs
        | inr h2 =>
            rw [h2] at hk2
            cases hk0 : s.client.socket with
            | none => rw [hk0] at hk2; exact absurd hk2 (by simp)
            | some k0 =>
                rw [hk0] at hk2
                simp only [Option.map_some'] at hk2
                cases Option.some.inj hk2
                exact absurd hrs (afterClose_ne_OPEN k0.readyState)
  | wsClose =>
      rw [step_wsClose]
      cases hlo : s.client.isUserLogout with
      | true =>
          rw [onWsCloseSys_logout s hlo]
          exact ⟨⟨hA, hB⟩, hC, hD⟩
      | false =>
          rw [onWsCloseSys_eq s hlo]
          refine ⟨⟨?_, ?_⟩, ?_, ?_⟩
          · intro r hr
            exact Nat.lt_trans (hA r hr) (Nat.lt_succ_self _)
          · intro k hk2
            have h3 : some (⟨s.nextGen, ReadyState.CONNECTING⟩ : Socket) = some k := hk2
            cases Option.some.inj h3
            exact Nat.lt_succ_self _
          · intro g r hr
            exact hC g r hr
          · intro k hk2 hrs
            have h3 : some (⟨s.nextGen, ReadyState.CONNECTING⟩ : Socket) = some k := hk2
            cases Option.some.inj h3
            exact ReadyState.noConfusion hrs
  | userClose =>
      rw [step_userClose]
      refine ⟨⟨?_, ?_⟩, ?_, ?_⟩
      · intro r hr
        exact hA r hr
      · intro k hk2
        have h3 : (none : Option Socket) = some k := hk2
        exact absurd h3 (by simp)
      · intro g r hr
        exact hC g r hr
      · intro k hk2 hrs
        have h3 : (none : Option Socket) = some k := hk2
        exact absurd h3 (by simp)
  | hookSend m =>
      rw [step_hookSend]
      cases hcond : (!s.wsClientSet || (isReady s.client == false)) with
      | true =>
          rw [sendMessage_not_ready s m hcond]
          exact ⟨⟨fun r hr => hA r hr, fun k hk2 => hB k hk2⟩,
                 fun g r hr => hC g r hr, fun k h1 h2 => hD k h1 h2⟩
      | false =>
          rw [sendMessage_ready s m hcond]
          obtain ⟨hli, k, hk, hrs⟩ :=
            isReady_true_socket s.client (sendMessage_ready_isLoggedIn s hcond)
          have hsends := sysSend_sends_open s m k hk hrs
          have hnonempty := hD k hk hrs
          refine ⟨⟨?_, ?_⟩, ?_, ?_⟩
          · intro r hr
            rw [hsends] at hr
            rw [sysSend_nextGen]
            simp only [List.mem_append, List.mem_singleton] at hr
            cases hr with
            | inl h2 => exact hA r h2
            | inr h2 => subst h2; exact hB k hk
          · intro k2 hk2
            rw [sysSend_client] at hk2
            rw [sysSend_nextGen]
            exact hB k2 hk2
          · intro g r hr
            rw [sendsFor_of_sends_eq s (sysSend s m) _ hsends g, head?_append_cases] at hr
            by_cases hemp : (sendsFor s g).isEmpty = true
            · rw [if_pos hemp] at hr
              by_cases hgg : ((⟨k.gen, m, s.client.isLoggedIn⟩ : SendRec).gen == g) = true
              · have hge : k.gen = g := by simpa using hgg
                rw [← hge] at hemp
                exact absurd (List.isEmpty_iff.mp hemp) hnonempty
              · rw [if_neg hgg] at hr
                exact absurd hr (by simp)
            · rw [if_neg hemp] at hr
              exact hC g r hr
          · intro k2 hk2 hrs2
            rw [sysSend_client] at hk2
            have h4 := hD k2 hk2 hrs2
            rw [sendsFor_of_sends_eq s (sysSend s m) _ hsends k2.gen]
            intro hcontra
            exact h4 (List.append_eq_nil.mp hcontra).1

theorem socketInv_run (evs : List Ev) : SocketInv (run evs) :=
  runFrom_preserves SocketInv socketInv_step evs mountSys socketInv_mount

/-! ## Further lemmas on processServerMsg -/

theorem processServerMsg_isLoggedIn_succ (c : WebSocketClientState) (msg : ServerMsg)
    (lr : LogonResult) (hmsg : msg.logonResult = some lr) (h0 : lr.resultCode = 0) :
    (processServerMsg c msg).isLoggedIn = true := by
  have hb : (lr.resultCode == 0) = true := beq_iff_eq.mpr h0
  have h1 : (lr.resultCode != 0) = false := by simp [bne, hb]
  simp [processServerMsg, hmsg, hb, h1]

theorem processServerMsg_socket_fail (c : WebSocketClientState) (msg : ServerMsg)
    (lr : LogonResult) (hmsg : msg.logonResult = some lr) (h0 : lr.resultCode ≠ 0) :
    (processServerMsg c msg).socket =
      c.socket.map (fun k => ⟨k.gen, k.readyState.afterClose⟩) := by
  have hb : (lr.resultCode == 0) = false := beq_eq_false_iff_ne.mpr h0
  have h1 : (lr.resultCode != 0) = true := by simp [bne, hb]
  simp [processServerMsg, hmsg, hb, h1]

/-! ## Claim theorems -/

/-- Claim C1 (evaluation of the code defect): a message submitted through
sendMessage before authentication is still queued — and absent from the
transport log — after a successful logon-result has been processed and the
client reports isLoggedIn; processing an inbound frame never drains the
hook's queue.  The flush effect depends only on wsClient, which never
changes identity after mount, so receipt of a successful logon-result does
not trigger the flush the claim describes. -/
theorem c1_queue_never_flushed_on_logon :
    (run [Ev.hookSend m1, Ev.wsOpen, Ev.wsMessage (some succMsg)]).client.isLoggedIn = true ∧
    (run [Ev.hookSend m1, Ev.wsOpen, Ev.wsMessage (some succMsg)]).queue = [m1] ∧
    (run [Ev.hookSend m1, Ev.wsOpen, Ev.wsMessage (some succMsg)]).sends.map SendRec.msg
      = [initiateLogonMsg] ∧
    (∀ (s : Sys) (f : Option ServerMsg), (step s (Ev.wsMessage f)).queue = s.queue) := by
  refine ⟨by decide, by decide, by decide, ?_⟩
  intro s f
  rw [step_wsMessage, onWsMessageSys_queue]

/-- Claim C2 (evaluation of the code defect): the public close() never
assigns isUserLogout — the flag stays false in every reachable state — so
after a user-initiated close() the resulting transport close event takes
the reconnect branch and opens a fresh socket (generation 1). -/
theorem c2_close_does_not_set_logout_flag :
    (run [Ev.userClose, Ev.wsClose]).client.socket = some ⟨1, ReadyState.CONNECTING⟩ ∧
    (run [Ev.userClose, Ev.wsClose]).nextGen = 2 ∧
    (∀ s : Sys, (step s Ev.userClose).client.isUserLogout = s.client.isUserLogout) ∧
    (∀ evs : List Ev, (run evs).client.isUserLogout = false) := by
  refine ⟨by decide, by decide, ?_, run_isUserLogout_false⟩
  intro s
  rfl

/-- Claim C3 counterexample: in the reachable state after a successful
logon, an unexpected transport close leaves isLoggedIn true — the
authenticated flag is not reset to false as the claim states (while a new
socket is indeed opened). -/
theorem c3_counterexample_loggedIn_not_reset :
    (run [Ev.wsOpen, Ev.wsMessage (some succMsg)]).client.isUserLogout = false ∧
    (run [Ev.wsOpen, Ev.wsMessage (some succMsg)]).client.isLoggedIn = true ∧
    (run [Ev.wsOpen, Ev.wsMessage (some succMsg), Ev.wsClose]).client.isLoggedIn = true ∧
    (run [Ev.wsOpen, Ev.wsMessage (some succMsg), Ev.wsClose]).client.socket =
      some ⟨1, ReadyState.CONNECTING⟩ := by
  decide

/-- Claim C3 as amended: on a transport close event with the user-logout
flag unset, the session discards the old transport handle and opens exactly
one new transport (the fresh generation, in CONNECTING), does not clear the
outbound queue and does not drop any logged sends — but the isLoggedIn flag
is left unchanged, not reset to false. -/
theorem c3_amended_unexpected_close (s : Sys) (h : s.client.isUserLogout = false) :
    (step s Ev.wsClose).client.socket = some ⟨s.nextGen, ReadyState.CONNECTING⟩ ∧
    (step s Ev.wsClose).nextGen = s.nextGen + 1 ∧
    (step s Ev.wsClose).queue = s.queue ∧
    (step s Ev.wsClose).sends = s.sends ∧
    (step s Ev.wsClose).client.isLoggedIn = s.client.isLoggedIn := by
  rw [step_wsClose, onWsCloseSys_eq s h]
  exact ⟨rfl, rfl, rfl, rfl, rfl⟩

/-- Claim C3 amended witness: the amended statement evaluated at the
post-mount state. -/
theorem c3_amended_witness :
    (step mountSys Ev.wsClose).client.socket =
      some ⟨mountSys.nextGen, ReadyState.CONNECTING⟩ ∧
    (step mountSys Ev.wsClose).nextGen = mountSys.nextGen + 1 ∧
    (step mountSys Ev.wsClose).queue = mountSys.queue ∧
    (step mountSys Ev.wsClose).sends = mountSys.sends ∧
    (step mountSys Ev.wsClose).client.isLoggedIn = mountSys.client.isLoggedIn :=
  c3_amended_unexpected_close mountSys rfl

/-- Claim C4 counterexample: after a logon-result with failure code 7 the
socket moves to CLOSING with the user-logout flag still false, so the
ensuing transport close event opens a new socket (generation 1) — a
reconnect attempt made by this component as a consequence of this
failure. -/
theorem c4_counterexample_reconnect_after_logon_failure :
    (run [Ev.wsOpen, Ev.wsMessage (some failMsg7)]).client.socket =
      some ⟨0, ReadyState.CLOSING⟩ ∧
    (run [Ev.wsOpen, Ev.wsMessage (some failMsg7)]).client.isUserLogout = false ∧
    (run [Ev.wsOpen, Ev.wsMessage (some failMsg7), Ev.wsClose]).client.socket =
      some ⟨1, ReadyState.CONNECTING⟩ ∧
    (run [Ev.wsOpen, Ev.wsMessage (some failMsg7), Ev.wsClose]).nextGen = 2 := by
  decide

/-- Claim C4 as amended: on receipt of a logon-result with nonzero result
code over an open socket, the handler closes the transport (readyState
CLOSING) and performs no flush — queue, transport log and generation
counter unchanged; the handler itself opens no new transport.  (The ensuing
close event then takes the generic unexpected-close reconnect path, since
the user-logout flag is unset.) -/
theorem c4_amended_logon_failure_close (s : Sys) (g : Nat) (msg : ServerMsg)
    (lr : LogonResult) (hmsg : msg.logonResult = some lr) (hcode : lr.resultCode ≠ 0)
    (hsock : s.client.socket = some ⟨g, ReadyState.OPEN⟩) :
    (step s (Ev.wsMessage (some msg))).client.socket = some ⟨g, ReadyState.CLOSING⟩ ∧
    (step s (Ev.wsMessage (some msg))).queue = s.queue ∧
    (step s (Ev.wsMessage (some msg))).sends = s.sends ∧
    (step s (Ev.wsMessage (some msg))).nextGen = s.nextGen := by
  refine ⟨?_, onWsMessageSys_queue s _, onWsMessageSys_sends s _, onWsMessageSys_nextGen s _⟩
  show (processServerMsg s.client msg).socket = some ⟨g, ReadyState.CLOSING⟩
  rw [processServerMsg_socket_fail s.client msg lr hmsg hcode, hsock]
  rfl

/-- Claim C4 amended witness: the amended statement evaluated right after
the socket opened, with failure code 7. -/
theorem c4_amended_witness :
    (step (run [Ev.wsOpen]) (Ev.wsMessage (some failMsg7))).client.socket =
      some ⟨0, ReadyState.CLOSING⟩ ∧
    (step (run [Ev.wsOpen]) (Ev.wsMessage (some failMsg7))).queue =
      (run [Ev.wsOpen]).queue ∧
    (step (run [Ev.wsOpen]) (Ev.wsMessage (some failMsg7))).sends =
      (run [Ev.wsOpen]).sends ∧
    (step (run [Ev.wsOpen]) (Ev.wsMessage (some failMsg7))).nextGen =
      (run [Ev.wsOpen]).nextGen :=
  c4_amended_logon_failure_close (run [Ev.wsOpen]) 0 failMsg7 ⟨7⟩ rfl
    (by decide) (by decide)

/-- Claim C5: in every reachable state, every payload in the transport log
is either the logon message itself or was handed to the transport while the
isLoggedIn flag was true — no application-level outbound message reaches
the transport while unauthenticated, the logon excepted. -/
theorem c5_no_unauthenticated_sends (evs : List Ev) (r : SendRec)
    (hr : r ∈ (run evs).sends) :
    r.msg.logon.isSome = true ∨ r.loggedInAtSend = true :=
  authSendInv_run evs r hr

/-- Claim C5 witness: the application message sent after a successful logon
in a concrete trace. -/
theorem c5_witness :
    (⟨0, m1, true⟩ : SendRec) ∈
        (run [Ev.wsOpen, Ev.wsMessage (some succMsg), Ev.hookSend m1]).sends ∧
    ((⟨0, m1, true⟩ : SendRec).msg.logon.isSome = true ∨
      (⟨0, m1, true⟩ : SendRec).loggedInAtSend = true) :=
  ⟨by decide,
   c5_no_unauthenticated_sends [Ev.wsOpen, Ev.wsMessage (some succMsg), Ev.hookSend m1]
     ⟨0, m1, true⟩ (by decide)⟩

/-- Claim C6: in every reachable state and on every socket generation, the
first payload logged for that socket is the logon message built from the
stored credentials; and the open-event handler that sends it bypasses the
outbound queue (the queue is untouched by the open event). -/
theorem c6_logon_first_on_fresh_socket :
    (∀ (evs : List Ev) (g : Nat) (r : SendRec),
        (sendsFor (run evs) g).head? = some r → r.msg = initiateLogonMsg) ∧
    (∀ s : Sys, (step s Ev.wsOpen).queue = s.queue) := by
  constructor
  · intro evs g r hr
    exact (socketInv_run evs).2.1 g r hr
  · intro s
    rw [step_wsOpen]
    cases hk : s.client.socket with
    | none => exact (onWsOpenSys_none s hk).2.2.2.1
    | some k => exact (onWsOpenSys_some s k hk).2.2.2.1

/-- Claim C6 witness: on the trace that just opens the first socket, the
first (and only) logged payload of generation 0 is the logon message. -/
theorem c6_witness :
    (sendsFor (run [Ev.wsOpen]) 0).head? = some ⟨0, initiateLogonMsg, false⟩ ∧
    (⟨0, initiateLogonMsg, false⟩ : SendRec).msg = initiateLogonMsg :=
  ⟨by decide,
   c6_logon_first_on_fresh_socket.1 [Ev.wsOpen] 0 ⟨0, initiateLogonMsg, false⟩ (by decide)⟩

/-- Claim C7 counterexample: a frame on which decode fails leaves
onWsMessage through the exception — the failure is not caught inside the
handler (there is no try/catch around decode in onWsMessage), contradicting
the "caught and logged" part of the claim. -/
theorem c7_counterexample_decode_not_caught :
    onWsMessageE mountSys.client none = Except.error DecodeError.decodeFailed := rfl

/-- Claim C7 as amended: a frame on which decode fails is dropped with the
whole session state unchanged — no state transition, the transport is not
closed, no callback fires — and it does not affect the processing of any
later events; but the decode failure escapes the handler (as an unhandled
rejection) instead of being caught and logged inside it. -/
theorem c7_amended_decode_failure_harmless (s : Sys) (evs : List Ev) :
    step s (Ev.wsMessage none) = s ∧
    runFrom s (Ev.wsMessage none :: evs) = runFrom s evs :=
  ⟨rfl, rfl⟩

/-- Claim C8: every successfully decoded inbound message — whatever control
content it carries — is appended to the sequence of messages observed by
the subscriber's onMessage callback. -/
theorem c8_every_decoded_message_forwarded (s : Sys) (msg : ServerMsg) :
    messagesSeen (step s (Ev.wsMessage (some msg))) = messagesSeen s ++ [msg] := by
  rw [step_wsMessage]
  simp [messagesSeen, onWsMessageSys, onWsMessageE, List.filterMap_append]

/-- Claim C9: the transport client's send is total — it transmits the
encoded message exactly when the underlying socket is OPEN, and otherwise
returns (never throws) an error value whose name field distinguishes it as
a ConnectionNotReadyError. -/
theorem c9_send_contract (c : WebSocketClientState) (m : ClientMsg) :
    (socketIsOpen c = true → clientSendResult c m = SendResult.sent (ClientMsg.encode m)) ∧
    (socketIsOpen c = false →
        clientSendResult c m =
          SendResult.err ⟨"ConnectionNotReadyError", "Connection is not ready"⟩) := by
  constructor
  · intro h
    simp [clientSendResult, h]
  · intro h
    simp [clientSendResult, h, mkConnectionNotReadyError]

/-- Claim C9 witness: send against an absent socket returns the
ConnectionNotReadyError value. -/
theorem c9_witness :
    clientSendResult { socket := none } m1 =
      SendResult.err ⟨"ConnectionNotReadyError", "Connection is not ready"⟩ :=
  (c9_send_contract { socket := none } m1).2 rfl

/-- Claim C10: for a frame carrying a logon-result, the callback appended
for it snapshots the state after control processing: on a success code the
snapshot has isLoggedIn true (and isReady true whenever the socket is
open), and on a failure code the socket is no longer open at callback
time — the control content is processed before the subscriber callback. -/
theorem c10_control_before_callback (s : Sys) (msg : ServerMsg) (lr : LogonResult)
    (hmsg : msg.logonResult = some lr) :
    (step s (Ev.wsMessage (some msg))).callbacks =
      s.callbacks ++ [CallbackRec.onMessageCB msg
        (processServerMsg s.client msg).isLoggedIn
        (socketIsOpen (processServerMsg s.client msg))
        (isReady (processServerMsg s.client msg))] ∧
    (lr.resultCode = 0 → (processServerMsg s.client msg).isLoggedIn = true) ∧
    (lr.resultCode = 0 → socketIsOpen (processServerMsg s.client msg) = true →
        isReady (processServerMsg s.client msg) = true) ∧
    (lr.resultCode ≠ 0 → socketIsOpen (processServerMsg s.client msg) = false) := by
  refine ⟨rfl, fun h0 => processServerMsg_isLoggedIn_succ s.client msg lr hmsg h0, ?_, ?_⟩
  · intro h0 hso
    unfold isReady
    rw [processServerMsg_isLoggedIn_succ s.client msg lr hmsg h0, hso]
    rfl
  · intro h0
    unfold socketIsOpen
    rw [processServerMsg_socket_fail s.client msg lr hmsg h0]
    cases hk : s.client.socket with
    | none => simp [hk]
    | some k =>
        simp only [hk, Option.map_some']
        exact beq_eq_false_iff_ne.mpr (afterClose_ne_OPEN k.readyState)

/-- Claim C10 witness: a subscriber observing the successful logon-result
right after the socket opened already observes isLoggedIn and isReady
true. -/
theorem c10_witness :
    (processServerMsg (run [Ev.wsOpen]).client succMsg).isLoggedIn = true ∧
    isReady (processServerMsg (run [Ev.wsOpen]).client succMsg) = true := by
  have h := c10_control_before_callback (run [Ev.wsOpen]) succMsg ⟨0⟩ rfl
  exact ⟨h.2.1 rfl, h.2.2.1 rfl (by decide)⟩
